import Mathlib

/-!
Verification development for `minus80/Freezable.py`.

The file shallowly embeds the module's two classes:

* `relational_db` (lines 28-66): an object holding a SQLite connection,
  with `cursor`, a `bulk_transaction` context manager built on a named
  savepoint, and `query` returning a DataFrame.  The constructor stores
  the connection in the instance attribute `db`, while `bulk_transaction`
  and `query` read the attribute `_db`, which is never assigned anywhere
  in the module; instance attribute lookup is therefore modelled
  explicitly (`pyLookup` over the attribute list built by `__init__`).

* `Freezable.__init__` (lines 89-131): directory resolution from
  `(name, dtype, parent, basedir)` and idempotent directory creation
  (`os.makedirs(..., exist_ok=True)`), plus the static `_tmpfile`
  factory (lines 133-146).

SQLite connection state is modelled as a single implicit table of rows
together with a savepoint stack and a pragma list; the filesystem is
modelled as the list of existing directories.
-/

/-- Prefix test on strings, computed structurally on the character
lists so that concrete instances evaluate. -/
def strStartsWith (s p : String) : Bool := p.data.isPrefixOf s.data

/-- Suffix test on strings, computed structurally on the character
lists so that concrete instances evaluate. -/
def strEndsWith (s p : String) : Bool := p.data.isSuffixOf s.data

/-- Models `posixpath.join(a, b)`: if `b` is absolute it replaces `a`;
otherwise it is appended, inserting `/` unless `a` is empty or already
ends in `/`. -/
def os_join2 (a b : String) : String :=
  if strStartsWith b "/" then b
  else if a = "" ∨ strEndsWith a "/" then a ++ b
  else a ++ "/" ++ b

/-- Models the three-argument `os.path.join(a, b, c)`. -/
def os_join3 (a b c : String) : String :=
  os_join2 (os_join2 a b) c

/-- Models `os.path.expanduser` relative to a home directory `home`:
a leading `~` component is replaced by `home`; every other path is
returned unchanged. -/
def expanduser (home p : String) : String :=
  if p = "~" then home
  else if strStartsWith p "~/" then home ++ String.mk (p.data.drop 1)
  else p

/-- Python-level exceptions that the embedded code can raise.
`userError` stands for an arbitrary exception raised by the body of a
`with` block. -/
inductive PyError where
  | attributeError (name : String)
  | fileNotFoundError (path : String)
  | fileExistsError (path : String)
  | userError (code : Nat)
deriving Repr, DecidableEq

/-- Error taxonomy of the specification relevant to name validation.
The source of `Freezable.__init__` contains no validation and no raise
statement on its resolution path, so the embedding below never returns
this error; the type exists so that the absence is a statable fact. -/
inductive M80Error where
  | invalidNameError (msg : String)
deriving Repr, DecidableEq

/-- A Freezable object as set up by `Freezable.__init__` (lines 97-124):
`_m80_name`, `_m80_dtype`, `_m80_basedir`, `_m80_parent` and the child
registry mutated by `_m80_add_child`.  Objects are identified by `Nat`
ids so that the parent's registry can hold references to children. -/
structure FrzObj where
  m80_name : String
  m80_dtype : String
  m80_basedir : String
  m80_parent : Option Nat
  m80_children : List Nat
deriving Repr, DecidableEq

/-- Modelled from the spec: `_m80_add_child` is called on the parent at
line 124 of `Freezable.py` but is not defined anywhere under `src/`.
The spec says the resolver "registers the new object as a child of
`parent` (side effect: mutates parent's child registry)" and that
`children` is a set of references, so registration inserts the child id
into the registry without duplicating an already-present reference. -/
def m80_add_child (p : FrzObj) (c : Nat) : FrzObj :=
  if c ∈ p.m80_children then p
  else { p with m80_children := p.m80_children ++ [c] }

/-- Embeds the directory-resolution part of `Freezable.__init__`
(lines 97-124): stores name and dtype, defaults `basedir` to the
configured `cf.options.basedir` when the argument is `None`, then either

* no parent: `_m80_basedir = os.path.join(basedir, 'databases',
  f'{dtype}.{name}')` and `_m80_parent = None`, or
* parent present: `_m80_basedir = os.path.join(parent._m80_basedir,
  f'{dtype}.{name}')`, `_m80_parent = parent`, and the new object is
  registered via `parent._m80_add_child(self)`.

The result pairs the new object with the updated parent (if any).  The
`Except` layer records that this code path contains no validation and no
raise statement: it always returns `.ok`.  (The later lines 128-130 of
`__init__`, which read the undefined attributes `self.basedir` and
`self._db`, are outside the resolution step and are not part of this
definition.) -/
def freezable_init (name dtype : String) (parent : Option (Nat × FrzObj))
    (basedir : Option String) (cf_basedir : String) (selfId : Nat) :
    Except M80Error (FrzObj × Option FrzObj) :=
  let bd := basedir.getD cf_basedir
  match parent with
  | none =>
      .ok ({ m80_name := name, m80_dtype := dtype,
             m80_basedir := os_join3 bd "databases" (dtype ++ "." ++ name),
             m80_parent := none, m80_children := [] }, none)
  | some (pid, p) =>
      .ok ({ m80_name := name, m80_dtype := dtype,
             m80_basedir := os_join2 p.m80_basedir (dtype ++ "." ++ name),
             m80_parent := some pid, m80_children := [] },
           some (m80_add_child p selfId))

/-- Models `os.makedirs(path, exist_ok=exist_ok)` over a filesystem
represented as the list of existing directories (at the granularity of
full paths): an existing path raises `FileExistsError` only when
`exist_ok` is false; otherwise the path is created (or kept). -/
def makedirs (fs : List String) (path : String) (exist_ok : Bool) :
    Except PyError (List String) :=
  if path ∈ fs then
    if exist_ok then .ok fs else .error (.fileExistsError path)
  else .ok (path :: fs)

/-- Embeds the directory-creation step of `Freezable.__init__`
(line 126): `os.makedirs(self._m80_basedir, exist_ok=True)`. -/
def freezable_create_dir (fs : List String) (obj : FrzObj) :
    Except PyError (List String) :=
  makedirs fs obj.m80_basedir true

/-- A handle returned by `tempfile.NamedTemporaryFile`: its mode and the
directory it was created in. -/
structure TempHandle where
  mode : String
  dir : String
deriving Repr, DecidableEq

/-- Models `tempfile.NamedTemporaryFile(mode, dir=d)`: creates a fresh
file inside `d`.  The library does not create `d`; when `d` does not
exist the call fails with `FileNotFoundError`. -/
def mkNamedTemporaryFile (mode d : String) (fs : List String) :
    Except PyError TempHandle :=
  if d ∈ fs then .ok { mode := mode, dir := d }
  else .error (.fileNotFoundError d)

/-- Embeds `Freezable._tmpfile` (lines 133-146): returns
`tempfile.NamedTemporaryFile('w',
dir=os.path.expanduser(os.path.join(cf.options.basedir, "tmp")))`.
No directory is created by this function. -/
def freezable_tmpfile (fs : List String) (cf_basedir home : String) :
    Except PyError TempHandle :=
  mkNamedTemporaryFile "w" (expanduser home (os_join2 cf_basedir "tmp")) fs

/-- Association update used for SQLite pragmas: replaces the first
binding of `k` or appends a new one. -/
def assocSet : List (String × String) → String → String → List (String × String)
  | [], k, v => [(k, v)]
  | (k', v') :: rest, k, v =>
      if k' = k then (k, v) :: rest else (k', v') :: assocSet rest k v

/-- Association lookup over a `String`-keyed list. -/
def strLookup : List (String × String) → String → Option String
  | [], _ => none
  | (k', v') :: rest, k => if k' = k then some v' else strLookup rest k

/-- State of one SQLite connection, at the granularity the embedded code
exercises: the rows of a single implicit table, the stack of named
savepoints (each with the snapshot of the rows taken when it was
established), and the pragma settings. -/
structure DbState where
  rows : List (List Int)
  savepoints : List (String × List (List Int))
  pragmas : List (String × String)
deriving Repr, DecidableEq

/-- The SQL statements issued by the embedded code through a cursor. -/
inductive Stmt where
  | pragmaSet (k v : String)
  | savepoint (n : String)
  | releaseSavepoint (n : String)
  | rollbackTo (n : String)
  | insertRow (r : List Int)
  | rawQuery (q : String)
deriving Repr, DecidableEq

/-- Finds the most recent savepoint named `n`: returns its snapshot and
the stack below it. -/
def splitAtSavepoint : List (String × List (List Int)) → String →
    Option (List (List Int) × List (String × List (List Int)))
  | [], _ => none
  | (m, snap) :: rest, n =>
      if m = n then some (snap, rest) else splitAtSavepoint rest n

/-- Models SQLite execution of one statement.  `SAVEPOINT n` pushes a
snapshot; `RELEASE n` discards the most recent savepoint named `n` and
everything above it; `ROLLBACK TO n` restores the rows to the snapshot
of the most recent savepoint named `n`, cancelling the savepoints above
it but keeping `n` itself; `INSERT` appends a row; `PRAGMA` updates a
setting; a read statement leaves the state unchanged.  (SQLite reports
an error for `RELEASE`/`ROLLBACK TO` with an unknown savepoint name;
the embedded code only ever releases the savepoint it just established,
so that path is modelled as a no-op and never exercised.) -/
def exec : Stmt → DbState → DbState
  | .pragmaSet k v, st => { st with pragmas := assocSet st.pragmas k v }
  | .savepoint n, st => { st with savepoints := (n, st.rows) :: st.savepoints }
  | .releaseSavepoint n, st =>
      match splitAtSavepoint st.savepoints n with
      | some (_, rest) => { st with savepoints := rest }
      | none => st
  | .rollbackTo n, st =>
      match splitAtSavepoint st.savepoints n with
      | some (snap, rest) =>
          { st with rows := snap, savepoints := (n, snap) :: rest }
      | none => st
  | .insertRow r, st => { st with rows := st.rows ++ [r] }
  | .rawQuery _, st => st

/-- Result of running one bulk-transaction scope: the final connection
state, the trace of statements executed through the cursor, and the
exception propagating out of the scope (if any). -/
structure ScopeResult where
  state : DbState
  executed : List Stmt
  raised : Option PyError
deriving Repr, DecidableEq

/-- Embeds the body of `relational_db.bulk_transaction` from line 50
onward, given a cursor on connection state `st`: sets
`PRAGMA synchronous = off` and `PRAGMA journal_mode = memory`,
establishes `SAVEPOINT m80_bulk_transaction`, then yields to the `with`
body, modelled as a batch of `INSERT`s (`ws`) followed by an optional
raised exception (`fl`).  On clean exit the `finally` clause releases
the savepoint; on an exception the `except` clause first executes
`ROLLBACK TO SAVEPOINT m80_bulk_transaction` and re-raises, with the
`finally` clause releasing the savepoint during unwinding, so the
original exception propagates unchanged after rollback and release. -/
def scope_run (st : DbState) (ws : List (List Int)) (fl : Option PyError) :
    ScopeResult :=
  let st1 := exec (.pragmaSet "synchronous" "off") st
  let st2 := exec (.pragmaSet "journal_mode" "memory") st1
  let st3 := exec (.savepoint "m80_bulk_transaction") st2
  let st4 := ws.foldl (fun s r => exec (.insertRow r) s) st3
  let entry : List Stmt :=
    [.pragmaSet "synchronous" "off", .pragmaSet "journal_mode" "memory",
     .savepoint "m80_bulk_transaction"] ++ ws.map Stmt.insertRow
  match fl with
  | none =>
      { state := exec (.releaseSavepoint "m80_bulk_transaction") st4,
        executed := entry ++ [.releaseSavepoint "m80_bulk_transaction"],
        raised := none }
  | some e =>
      let st5 := exec (.rollbackTo "m80_bulk_transaction") st4
      { state := exec (.releaseSavepoint "m80_bulk_transaction") st5,
        executed := entry ++ [.rollbackTo "m80_bulk_transaction",
                              .releaseSavepoint "m80_bulk_transaction"],
        raised := some e }

/-- A Python attribute value on a `relational_db` instance: either a
string (`filename`) or a SQLite connection (`db`). -/
inductive PyVal where
  | vStr (s : String)
  | vConn (st : DbState)
deriving Repr, DecidableEq

/-- Python instance-attribute lookup over the attribute list: an absent
name raises `AttributeError`. -/
def pyLookup : List (String × PyVal) → String → Option PyVal
  | [], _ => none
  | (k, v) :: rest, a => if k = a then some v else pyLookup rest a

/-- Embeds `relational_db.__init__` (lines 29-33): the instance ends up
with exactly two attributes, `filename` (the expanded
`basedir/db.sqlite` path) and `db` (the opened connection).  No
assignment to an attribute named `_db` exists anywhere in the class. -/
def relational_db_init (basedir home : String) (conn : DbState) :
    List (String × PyVal) :=
  [("filename", .vStr (expanduser home (os_join2 basedir "db.sqlite"))),
   ("db", .vConn conn)]

/-- Embeds `relational_db.bulk_transaction` (lines 38-59) as called on
an instance with attribute list `self`.  Its first statement,
`cur = self._db.cursor()` (line 49), looks up the attribute `_db`; when
that lookup fails the method raises `AttributeError` with no statement
executed on any connection (empty trace).  When an attribute `_db`
holding a connection is present, the scope body `scope_run` executes. -/
def bulk_transaction (self : List (String × PyVal)) (ws : List (List Int))
    (fl : Option PyError) :
    List Stmt × Except PyError (DbState × Option PyError) :=
  match pyLookup self "_db" with
  | none => ([], .error (.attributeError "_db"))
  | some (.vConn st) =>
      let r := scope_run st ws fl
      (r.executed, .ok (r.state, r.raised))
  | some (.vStr _) => ([], .error (.attributeError "cursor"))

/-- Tabular result of `query`, modelling the `pandas.DataFrame` built
from the cursor: column names and rows. -/
structure DataFrame where
  columns : List String
  rows : List (List Int)
deriving Repr, DecidableEq

/-- Embeds `relational_db.query` (lines 61-66).  The engine is a
parameter mapping connection state and SQL text to the cursor's
`description` (a list of `(name, decltype)` pairs) and the rows returned
by `fetchall`.  The method's first expression,
`cur = self._db.cursor().execute(q)` (line 62), looks up `_db`; on
failure it raises `AttributeError` with no statement executed.
Otherwise the DataFrame takes `[x[0] for x in cur.description]` as its
columns, in order, and the fetched rows in engine order. -/
def relational_db_query
    (engine : DbState → String → List (String × String) × List (List Int))
    (self : List (String × PyVal)) (q : String) :
    List Stmt × Except PyError DataFrame :=
  match pyLookup self "_db" with
  | none => ([], .error (.attributeError "_db"))
  | some (.vConn st) =>
      let cur := engine st q
      ([.rawQuery q], .ok { columns := cur.1.map (fun x => x.1), rows := cur.2 })
  | some (.vStr _) => ([], .error (.attributeError "cursor"))

/-- A freshly opened, empty SQLite connection. -/
def emptyDb : DbState := { rows := [], savepoints := [], pragmas := [] }

/-- A connection whose implicit table holds two one-column rows. -/
def sampleDb : DbState := { rows := [[1], [2]], savepoints := [], pragmas := [] }

/-- A concrete engine for `SELECT`-all statements over the implicit
table: one integer column named `value`, rows as stored. -/
def selectAllEngine : DbState → String → List (String × String) × List (List Int) :=
  fun st _ => ([("value", "INTEGER")], st.rows)

/-- The root object of the spec's scenario: kind `Cohort`, name `foo`,
under base `/tmp/m80test`, with an empty child registry. -/
def cohortFoo : FrzObj :=
  { m80_name := "foo", m80_dtype := "Cohort",
    m80_basedir := "/tmp/m80test/databases/Cohort.foo",
    m80_parent := none, m80_children := [] }

/-- Folding a batch of `INSERT`s appends the rows and touches nothing
else in the connection state. -/
theorem foldl_insert (st : DbState) (ws : List (List Int)) :
    ws.foldl (fun s r => exec (Stmt.insertRow r) s) st =
      { st with rows := st.rows ++ ws } := by
  induction ws generalizing st with
  | nil => simp
  | cons w tl ih =>
      rw [List.foldl_cons, ih]
      simp [exec, List.append_assoc]

/-- Looking up the key just written by `assocSet` yields the new value. -/
theorem strLookup_assocSet_self (ps : List (String × String)) (k v : String) :
    strLookup (assocSet ps k v) k = some v := by
  induction ps with
  | nil => simp [assocSet, strLookup]
  | cons hd tl ih =>
      obtain ⟨k', v'⟩ := hd
      by_cases h : k' = k
      · simp [assocSet, strLookup, h]
      · simp [assocSet, strLookup, h, ih]

/-- Writing one key with `assocSet` leaves lookups of other keys
unchanged. -/
theorem strLookup_assocSet_ne (ps : List (String × String)) (k1 k2 v : String)
    (h : k2 ≠ k1) : strLookup (assocSet ps k2 v) k1 = strLookup ps k1 := by
  induction ps with
  | nil => simp [assocSet, strLookup, h]
  | cons hd tl ih =>
      obtain ⟨k', v'⟩ := hd
      by_cases h2 : k' = k2
      · subst h2
        simp [assocSet, strLookup, h]
      · simp [assocSet, strLookup, h2, ih]

/-- Full evaluation of a clean bulk-transaction scope given a cursor:
the batch is appended to the rows, the savepoint stack is restored, the
pragmas are left relaxed, and nothing is raised. -/
theorem scope_run_none_eq (st : DbState) (ws : List (List Int)) :
    scope_run st ws none =
      { state := { rows := st.rows ++ ws, savepoints := st.savepoints,
                   pragmas := assocSet (assocSet st.pragmas "synchronous" "off")
                     "journal_mode" "memory" },
        executed := [.pragmaSet "synchronous" "off",
                     .pragmaSet "journal_mode" "memory",
                     .savepoint "m80_bulk_transaction"] ++ ws.map Stmt.insertRow ++
                    [.releaseSavepoint "m80_bulk_transaction"],
        raised := none } := by
  unfold scope_run
  dsimp only
  rw [foldl_insert]
  simp [exec, splitAtSavepoint]

/-- Full evaluation of a failing bulk-transaction scope given a cursor:
the rows are rolled back to their pre-scope value, the savepoint stack
is restored, the pragmas are left relaxed, and the original exception
propagates unchanged. -/
theorem scope_run_some_eq (st : DbState) (ws : List (List Int)) (e : PyError) :
    scope_run st ws (some e) =
      { state := { rows := st.rows, savepoints := st.savepoints,
                   pragmas := assocSet (assocSet st.pragmas "synchronous" "off")
                     "journal_mode" "memory" },
        executed := [.pragmaSet "synchronous" "off",
                     .pragmaSet "journal_mode" "memory",
                     .savepoint "m80_bulk_transaction"] ++ ws.map Stmt.insertRow ++
                    [.rollbackTo "m80_bulk_transaction",
                     .releaseSavepoint "m80_bulk_transaction"],
        raised := some e } := by
  unfold scope_run
  dsimp only
  rw [foldl_insert]
  simp [exec, splitAtSavepoint]

/-- Intended scope semantics, clean exit: with a cursor in hand, a batch
written inside the scope is present in the connection state after the
savepoint is released, and the savepoint stack is restored. -/
theorem scope_run_clean_visible (st : DbState) (ws : List (List Int)) :
    (scope_run st ws none).state.rows = st.rows ++ ws ∧
    (scope_run st ws none).state.savepoints = st.savepoints ∧
    (scope_run st ws none).raised = none := by
  rw [scope_run_none_eq]
  exact ⟨rfl, rfl, rfl⟩

/-- Intended scope semantics, failing exit: with a cursor in hand, a
batch written inside a scope whose body raises is entirely rolled back
(the rows are exactly the rows from before the scope), the savepoint is
released, and the original exception propagates unchanged. -/
theorem scope_run_failure_atomic (st : DbState) (ws : List (List Int)) (e : PyError) :
    (scope_run st ws (some e)).state.rows = st.rows ∧
    (scope_run st ws (some e)).state.savepoints = st.savepoints ∧
    (scope_run st ws (some e)).raised = some e := by
  rw [scope_run_some_eq]
  exact ⟨rfl, rfl, rfl⟩

/-- Intended `query` semantics: on an instance that does carry a `_db`
attribute, `query` produces the DataFrame whose columns are the first
components of the cursor description, in order, and whose rows are the
fetched rows, in engine order. -/
theorem query_intended_shape
    (engine : DbState → String → List (String × String) × List (List Int))
    (st : DbState) (q : String) :
    relational_db_query engine [("_db", .vConn st)] q =
      ([.rawQuery q], .ok { columns := (engine st q).1.map (fun x => x.1),
                            rows := (engine st q).2 }) := rfl

/-- With `exist_ok=True`, creating a directory twice succeeds: the first
call yields a filesystem containing the path, and the second call on
that filesystem returns it unchanged. -/
theorem makedirs_exist_ok_twice (fs : List String) (p : String) :
    ∃ fs1, makedirs fs p true = .ok fs1 ∧ makedirs fs1 p true = .ok fs1 := by
  by_cases h : p ∈ fs
  · exact ⟨fs, by simp [makedirs, h], by simp [makedirs, h]⟩
  · exact ⟨p :: fs, by simp [makedirs, h], by simp [makedirs]⟩

/-- C1: a Freezable constructed with a name and no parent resolves its
storage directory to `join(basedir, 'databases', f'{dtype}.{name}')`
(with `basedir` defaulting to the configured base directory), and the
result is a pure function of those inputs — the object id `id0` does not
appear on the right-hand side, so every construction with identical
inputs resolves the same directory. -/
theorem freezable_root_directory (name dtype : String) (b : Option String)
    (cfg : String) (id0 : Nat) :
    freezable_init name dtype none b cfg id0 =
      .ok ({ m80_name := name, m80_dtype := dtype,
             m80_basedir := os_join3 (b.getD cfg) "databases" (dtype ++ "." ++ name),
             m80_parent := none, m80_children := [] }, none) := by
  cases b <;> rfl

/-- C2: a Freezable constructed with a parent resolves its storage
directory to `join(parent._m80_basedir, f'{dtype}.{name}')` and
registers itself with the parent via `_m80_add_child`; for a fresh
object (one not already registered) the parent's child registry then
contains it exactly once. -/
theorem freezable_child_registration (name dtype : String) (pid selfId : Nat)
    (p : FrzObj) (b : Option String) (cfg : String)
    (h : selfId ∉ p.m80_children) :
    freezable_init name dtype (some (pid, p)) b cfg selfId =
      .ok ({ m80_name := name, m80_dtype := dtype,
             m80_basedir := os_join2 p.m80_basedir (dtype ++ "." ++ name),
             m80_parent := some pid, m80_children := [] },
           some (m80_add_child p selfId)) ∧
    (m80_add_child p selfId).m80_children.count selfId = 1 := by
  refine ⟨rfl, ?_⟩
  have h0 : p.m80_children.count selfId = 0 := List.count_eq_zero.mpr h
  simp [m80_add_child, h, h0]

/-- Witness for C2: the spec's own scenario — child `Locus.bar` under
parent `Cohort.foo`. -/
theorem freezable_child_registration_witness :
    freezable_init "bar" "Locus" (some (0, cohortFoo)) none "/tmp/m80test" 1 =
      .ok ({ m80_name := "bar", m80_dtype := "Locus",
             m80_basedir := os_join2 cohortFoo.m80_basedir ("Locus" ++ "." ++ "bar"),
             m80_parent := some 0, m80_children := [] },
           some (m80_add_child cohortFoo 1)) ∧
    (m80_add_child cohortFoo 1).m80_children.count 1 = 1 :=
  freezable_child_registration "bar" "Locus" 0 1 cohortFoo none "/tmp/m80test"
    (by decide)

/-- C3: evaluating the code at the failing input.  A bulk-transaction
scope whose body would raise never gets that far: `bulk_transaction`
raises `AttributeError` at `cur = self._db.cursor()` on every instance
built by `__init__` (which sets `db`, not `_db`), with no statement
executed on the connection — so no savepoint is established, nothing is
rolled back, and the error that reaches the caller is the
`AttributeError`, not the body's exception. -/
theorem bulk_transaction_failure_scope_attribute_error :
    bulk_transaction (relational_db_init "/base" "/home" emptyDb) [[1]]
        (some (.userError 1)) = ([], .error (.attributeError "_db")) := rfl

/-- C4: evaluating the code at the failing input.  A would-be clean
bulk-transaction scope also raises `AttributeError` before yielding a
cursor, so no batch can be written through the scope at all, and `query`
on the same store fails the same way — the round-trip is impossible on
every instance built by `__init__`. -/
theorem bulk_transaction_clean_scope_attribute_error :
    bulk_transaction (relational_db_init "/base" "/home" emptyDb) [[1], [2]] none =
      ([], .error (.attributeError "_db")) ∧
    relational_db_query selectAllEngine (relational_db_init "/base" "/home" emptyDb)
        "SELECT value FROM t" = ([], .error (.attributeError "_db")) :=
  ⟨rfl, rfl⟩

/-- C5: evaluating the code at the failing input.  `query` on an
instance built by `__init__`, over a connection whose table holds two
one-column rows, raises `AttributeError` at `self._db` before executing
the statement; no DataFrame is produced. -/
theorem query_attribute_error :
    relational_db_query selectAllEngine (relational_db_init "/base" "/home" sampleDb)
        "SELECT value FROM t" = ([], .error (.attributeError "_db")) := rfl

/-- C6: directory creation at construction is idempotent.  Two
constructions with identical `(name, dtype, parent, basedir)` (and any
object ids) resolve the same directory, and after the first
construction's `os.makedirs(..., exist_ok=True)` step the second
construction's creation step returns successfully on the resulting
filesystem. -/
theorem freezable_dir_creation_idempotent (fs : List String) (name dtype : String)
    (parent : Option (Nat × FrzObj)) (b : Option String) (cfg : String)
    (id1 id2 : Nat) :
    ∃ obj1 rest1 fs1 obj2 rest2,
      freezable_init name dtype parent b cfg id1 = .ok (obj1, rest1) ∧
      freezable_create_dir fs obj1 = .ok fs1 ∧
      freezable_init name dtype parent b cfg id2 = .ok (obj2, rest2) ∧
      obj2.m80_basedir = obj1.m80_basedir ∧
      freezable_create_dir fs1 obj2 = .ok fs1 := by
  cases parent with
  | none =>
      obtain ⟨fs1, h1, h2⟩ := makedirs_exist_ok_twice fs
        (os_join3 (b.getD cfg) "databases" (dtype ++ "." ++ name))
      exact ⟨_, _, fs1, _, _, rfl, h1, rfl, rfl, h2⟩
  | some pp =>
      obtain ⟨pid, p⟩ := pp
      obtain ⟨fs1, h1, h2⟩ := makedirs_exist_ok_twice fs
        (os_join2 p.m80_basedir (dtype ++ "." ++ name))
      exact ⟨_, _, fs1, _, _, rfl, h1, rfl, rfl, h2⟩

/-- Counterexample for C7: the name `a/b` contains a path separator, yet
construction succeeds and resolution produces the directory path
`/base/databases/Cohort.a/b` — no `InvalidNameError` is raised. -/
theorem invalid_name_accepted_cex :
    freezable_init "a/b" "Cohort" none (some "/base") "/cfg" 0 =
      .ok ({ m80_name := "a/b", m80_dtype := "Cohort",
             m80_basedir := "/base/databases/Cohort.a/b",
             m80_parent := none, m80_children := [] }, none) := rfl

/-- C7 as amended: `Freezable.__init__` performs no name validation —
for every name containing a path separator or a null byte, construction
does not fail and the illegal characters are interpolated straight into
the resolved directory path. -/
theorem invalid_name_interpolated (name dtype : String) (b cfg : String) (cid : Nat)
    (_h : name.data.contains '/' = true ∨ name.data.contains (Char.ofNat 0) = true) :
    freezable_init name dtype none (some b) cfg cid =
      .ok ({ m80_name := name, m80_dtype := dtype,
             m80_basedir := os_join3 b "databases" (dtype ++ "." ++ name),
             m80_parent := none, m80_children := [] }, none) := rfl

/-- Witness for the amended C7 at the name `a/b`. -/
theorem invalid_name_interpolated_witness :
    freezable_init "a/b" "Cohort" none (some "/base") "/cfg" 7 =
      .ok ({ m80_name := "a/b", m80_dtype := "Cohort",
             m80_basedir := os_join3 "/base" "databases" ("Cohort" ++ "." ++ "a/b"),
             m80_parent := none, m80_children := [] }, none) :=
  invalid_name_interpolated "a/b" "Cohort" "/base" "/cfg" 7 (Or.inl (by decide))

/-- Counterexample for C8: on a filesystem where `/base/tmp` does not
exist, the temp-file factory fails with `FileNotFoundError` instead of
ensuring the directory exists — the factory contains no `makedirs`. -/
theorem tmpfile_missing_dir_cex :
    freezable_tmpfile [] "/base" "/home" =
      .error (.fileNotFoundError "/base/tmp") := rfl

/-- C8 as amended: every call to the temp-file factory opens a
writable-text (`'w'`) handle whose directory is
`expanduser(join(configuredBaseDir, "tmp"))`, provided that directory
already exists; the factory itself never creates it. -/
theorem tmpfile_in_existing_dir (fs : List String) (cfg home : String)
    (h : expanduser home (os_join2 cfg "tmp") ∈ fs) :
    freezable_tmpfile fs cfg home =
      .ok { mode := "w", dir := expanduser home (os_join2 cfg "tmp") } := by
  simp [freezable_tmpfile, mkNamedTemporaryFile, h]

/-- Witness for the amended C8 on a filesystem containing `/base/tmp`. -/
theorem tmpfile_in_existing_dir_witness :
    freezable_tmpfile ["/base/tmp"] "/base" "/home" =
      .ok { mode := "w", dir := expanduser "/home" (os_join2 "/base" "tmp") } :=
  tmpfile_in_existing_dir ["/base/tmp"] "/base" "/home" (by decide)

/-- C9: both `bulk_transaction` and `query` read the instance attribute
`_db`, which `__init__` never assigns (it assigns `db`), so on every
instance produced by the constructor each method fails with
`AttributeError` with an empty execution trace — no SQL statement is
executed before the failure. -/
theorem relational_db_methods_read_undefined_attribute
    (basedir home : String) (conn : DbState) (ws : List (List Int))
    (fl : Option PyError) (q : String)
    (engine : DbState → String → List (String × String) × List (List Int)) :
    bulk_transaction (relational_db_init basedir home conn) ws fl =
      ([], .error (.attributeError "_db")) ∧
    relational_db_query engine (relational_db_init basedir home conn) q =
      ([], .error (.attributeError "_db")) :=
  ⟨rfl, rfl⟩

/-- Counterexample for C10: entering a bulk-transaction scope on an
instance built by `__init__` executes no statement at all — in
particular no `PRAGMA synchronous = off` — because the attribute lookup
of `_db` fails first. -/
theorem bulk_transaction_no_pragma_cex :
    bulk_transaction (relational_db_init "/base" "/home" emptyDb) [] none =
      ([], .error (.attributeError "_db")) ∧
    Stmt.pragmaSet "synchronous" "off" ∉
      (bulk_transaction (relational_db_init "/base" "/home" emptyDb) [] none).1 :=
  ⟨rfl, List.not_mem_nil _⟩

/-- C10 as amended: on every instance the constructor produces,
attempting to enter a bulk-transaction scope raises `AttributeError`
before any pragma statement executes; the scope body as written (once
given a cursor) does set `synchronous = off` and `journal_mode = memory`
on entry, and no exit path — clean or failing — restores them, so on the
body's semantics the relaxed settings persist in the connection state
after the scope exits. -/
theorem bulk_transaction_pragma_amended :
    (∀ (bd home : String) (conn : DbState) (ws : List (List Int))
        (fl : Option PyError),
      bulk_transaction (relational_db_init bd home conn) ws fl =
        ([], .error (.attributeError "_db"))) ∧
    (∀ (st : DbState) (ws : List (List Int)) (fl : Option PyError),
      strLookup (scope_run st ws fl).state.pragmas "synchronous" = some "off" ∧
      strLookup (scope_run st ws fl).state.pragmas "journal_mode" = some "memory") := by
  refine ⟨fun bd home conn ws fl => rfl, fun st ws fl => ?_⟩
  have hs : (scope_run st ws fl).state.pragmas =
      assocSet (assocSet st.pragmas "synchronous" "off") "journal_mode" "memory" := by
    cases fl with
    | none => rw [scope_run_none_eq]
    | some e => rw [scope_run_some_eq]
  rw [hs]
  refine ⟨?_, strLookup_assocSet_self _ _ _⟩
  rw [strLookup_assocSet_ne _ "synchronous" "journal_mode" "memory" (by decide)]
  exact strLookup_assocSet_self _ _ _
